import Mathlib

/-!
Shallow embedding of the iLibrary `Library` class (src/app/iLibrary/src/Library.py,
duplicated in saveLibrary.py).  The two external effect channels — SQL command
execution through `CALL QSYS2.QCMDEXC(?)` / `cursor.execute`, and the paramiko
SFTP download — are modelled by an environment of outcome oracles; each operation
returns its Python result together with the trace of observable effects it
performed, and Python's `raise` of a `ValueError` that escapes the method is
modelled by `Except.error` carrying the message.
-/

set_option maxRecDepth 4000

namespace ILibrary

/-- Outcome oracles for the external world: `cmdOk c` tells whether executing the
command text `c` via QCMDEXC succeeds, and `downloadOk local remote port` tells
whether the SFTP download in `__getZipFile` succeeds (its `False` covers the
caught `AuthenticationException` / `SSHException` / `FileNotFoundError` cases). -/
structure Env where
  cmdOk : String → Bool
  downloadOk : String → String → Int → Bool

/-- Observable effects of one method call, in order of occurrence:
`exec c` is `cursor.execute("CALL QSYS2.QCMDEXC(?)", c)`, `query s` is
`cursor.execute(s)` for a metadata SELECT, `commit` / `rollback` are
`self.conn.commit()` / `self.conn.rollback()`, and `download lp rp port` is the
SFTP transfer attempt of `__getZipFile(localFilePath=lp, remotePath=rp, port)`. -/
inductive Event where
  | exec : String → Event
  | query : String → Event
  | commit : Event
  | rollback : Event
  | download : String → String → Int → Event
deriving DecidableEq

/-- Python `if not port: port = 2222` on the optional int argument of
`__getZipFile` (Library.py lines 332-333): `None` and `0` are falsy. -/
def effectivePort : Option Int → Int
  | none => 2222
  | some p => if p = 0 then 2222 else p

/-- Python `str.upper()`, character-wise uppercasing of the string
(`String.toUpper` is extensionally the same map, but is defined through
`String.mapAux`, which the kernel cannot evaluate; this data-level form can be
evaluated on concrete inputs). -/
def pyUpper (s : String) : String := String.mk (s.data.map Char.toUpper)

/-- The f-string of `Library.__crtsavf` (line 289), with the description already
resolved. -/
def crtsavfCmdStr (saveFileName library description : String) : String :=
  "CRTSAVF FILE(" ++ pyUpper library ++ "/" ++ pyUpper saveFileName ++
    ") TEXT('" ++ description ++ "')"

/-- The f-string of `Library.saveLibrary` (line 212).  Note: none of the
arguments is uppercased here. -/
def savlibCmdStr (library toLibrary saveFileName version : String) : String :=
  "SAVLIB LIB(" ++ library ++ ") DEV(*SAVF) SAVF(" ++ toLibrary ++ "/" ++
    saveFileName ++ ") TGTRLS(" ++ version ++ ")"

/-- The f-string of `Library.saveLibrary` (lines 222-225). -/
def cpytostmfCmdStr (toLibrary saveFileName remoteTempPath : String) : String :=
  "CPYTOSTMF FROMMBR('/QSYS.LIB/" ++ pyUpper toLibrary ++ ".LIB/" ++
    pyUpper saveFileName ++ ".FILE') TOSTMF('" ++ remoteTempPath ++
    "') STMFOPT(*REPLACE)"

/-- The f-string of `Library.saveLibrary` (line 232). -/
def qshRmCmdStr (remoteTempPath : String) : String :=
  "QSH CMD('rm -r " ++ remoteTempPath ++ "')"

/-- The f-string of `Library.removeFile` (line 371). -/
def dltfCmdStr (library saveFileName : String) : String :=
  "DLTF FILE(" ++ pyUpper library ++ "/" ++ pyUpper saveFileName ++ ")"

/-- `if not description: description = 'A SaveFile from iLibrary'`
(Library.py lines 284-285). -/
def resolveDescription (description : String) : String :=
  if description = "" then "A SaveFile from iLibrary" else description

/-- `Library.__crtsavf` (lines 261-302): validate the two names, default the
description, execute one CRTSAVF command; commit and return `True` on success,
rollback and return `False` on failure. -/
def crtsavf (env : Env) (saveFileName library description : String) :
    Except String (Bool × List Event) :=
  if saveFileName = "" then Except.error "A file name is required."
  else if library = "" then Except.error "A library name is required."
  else
    let cmd := crtsavfCmdStr saveFileName library (resolveDescription description)
    if env.cmdOk cmd then Except.ok (true, [Event.exec cmd, Event.commit])
    else Except.ok (false, [Event.exec cmd, Event.rollback])

/-- `Library.__getZipFile` (lines 307-361): empty-path guards print and return
`False` without opening a connection; otherwise one SFTP transfer is attempted
on the effective port and its outcome is the boolean result (all modelled
exceptions are caught inside and turned into `False`). -/
def getZipFile (env : Env) (localFilePath remotePath : String) (port : Option Int) :
    Bool × List Event :=
  if localFilePath = "" then (false, [])
  else if remotePath = "" then (false, [])
  else
    let p := effectivePort port
    (env.downloadOk localFilePath remotePath p,
     [Event.download localFilePath remotePath p])

/-- `Library.removeFile` (lines 363-383): no argument validation at all — one
DLTF command built from the uppercased arguments is always dispatched; commit
and `True` on success, rollback and `False` on failure; nothing is raised. -/
def removeFile (env : Env) (library saveFileName : String) :
    Except String (Bool × List Event) :=
  let cmd := dltfCmdStr library saveFileName
  if env.cmdOk cmd then Except.ok (true, [Event.exec cmd, Event.commit])
  else Except.ok (false, [Event.exec cmd, Event.rollback])

/-- `elif remPath[-1] == '/': remPath = remPath[:-1]` (lines 201-202, 205-206):
one trailing slash is stripped, exactly once. -/
def strip1Slash (s : String) : String :=
  if s.data.getLast? = some '/' then String.mk s.data.dropLast else s

/-- POSIX `os.path.join` restricted to two components, as used on the IFS paths
in `saveLibrary`: an absolute second component discards the first, and a
separator is inserted only when the first component is nonempty and does not
already end in a slash. -/
def posixJoin (a b : String) : String :=
  if b.data.head? = some '/' then b
  else if a = "" then a ++ b
  else if a.data.getLast? = some '/' then a ++ b
  else a ++ "/" ++ b

/-- The temp-file path construction of `saveLibrary` (lines 201-206, 219-221):
`join(dir-with-one-trailing-slash-stripped, saveFileName.upper() + '.savf')`.
Used for both the remote temp path (from `remPath`) and the local destination
(from `localPath`). -/
def savfTempPath (dir saveFileName : String) : String :=
  posixJoin (strip1Slash dir) (pyUpper saveFileName ++ ".savf")

/-- The `if getZip:` inner `try` block of `saveLibrary` (lines 217-241).  Every
exception arising inside it — a failing CPYTOSTMF or QSH rm execution, the
`ValueError` raised when the download reports failure, and the `ValueError`
raised when `removeFile` reports failure — is caught by the inner
`except Exception` and only printed, so the block yields no result, only its
trace of effects. -/
def getZipPhase (env : Env) (toLibrary saveFileName localPath remPath : String)
    (port : Option Int) (remSavf : Bool) : List Event :=
  let remoteTemp := savfTempPath remPath saveFileName
  let localDest := savfTempPath localPath saveFileName
  let cpyCmd := cpytostmfCmdStr toLibrary saveFileName remoteTemp
  if env.cmdOk cpyCmd = false then [Event.exec cpyCmd]
  else
    let dl := getZipFile env localDest remoteTemp port
    if dl.1 = false then Event.exec cpyCmd :: dl.2
    else
      let rmCmd := qshRmCmdStr remoteTemp
      if env.cmdOk rmCmd = false then Event.exec cpyCmd :: dl.2 ++ [Event.exec rmCmd]
      else if remSavf then
        match removeFile env toLibrary saveFileName with
        | Except.ok (_, ev) => Event.exec cpyCmd :: dl.2 ++ [Event.exec rmCmd] ++ ev
        | Except.error _ => Event.exec cpyCmd :: dl.2 ++ [Event.exec rmCmd]
      else Event.exec cpyCmd :: dl.2 ++ [Event.exec rmCmd]

/-- `Library.saveLibrary` (lines 152-256).  Validation `ValueError`s are the
only exceptions that escape (`Except.error`); after a successful `__crtsavf`,
the outer `try` fails (rollback / `False`) only when the SAVLIB execution
itself fails — everything that goes wrong inside the `getZip` block is
swallowed by the inner handler, after which the outer `else` commits and
returns `True`. -/
def saveLibrary (env : Env) (library saveFileName toLibrary description
    localPath remPath : String) (getZip : Bool) (port : Option Int)
    (remSavf : Bool) (version : String) : Except String (Bool × List Event) :=
  if library = "" then Except.error "A library name is required."
  else if saveFileName = "" then Except.error "A save file name is required."
  else
    let toLib := if toLibrary = "" then library else toLibrary
    if getZip ∧ remPath = "" then
      Except.error "A remote path is required. Use 'remPath' instead."
    else if getZip ∧ localPath = "" then
      Except.error "A local path is required. Use 'localPath' instead."
    else
      let ver := if version = "" then "*CURRENT" else version
      match crtsavf env saveFileName toLib description with
      | Except.error e => Except.error e
      | Except.ok (false, ev0) => Except.ok (false, ev0)
      | Except.ok (true, ev0) =>
        let savCmd := savlibCmdStr library toLib saveFileName ver
        if env.cmdOk savCmd = false then
          Except.ok (false, ev0 ++ [Event.exec savCmd, Event.rollback])
        else if getZip = false then
          Except.ok (true, ev0 ++ [Event.exec savCmd, Event.commit])
        else
          Except.ok (true, ev0 ++ [Event.exec savCmd]
            ++ getZipPhase env toLib saveFileName localPath remPath port remSavf
            ++ [Event.commit])

/-- The SELECT of `Library.getInfoForLibrary` (line 95). -/
def libraryInfoQueryStr (library : String) : String :=
  "SELECT * FROM TABLE(QSYS2.LIBRARY_INFO(upper('" ++ library ++ "')))"

/-- Validation and dispatch of `Library.getInfoForLibrary` (lines 89-98): empty
and over-length names raise `ValueError` before any query; otherwise exactly one
SELECT is issued. -/
def getInfoForLibraryEvents (library : String) : Except String (List Event) :=
  if library = "" then Except.error "A library name is required."
  else if 10 < library.length then
    Except.error "The library name is too long. Maximum length is 10."
  else Except.ok [Event.query (libraryInfoQueryStr library)]

/-- The SELECT of `Library.getFileInfo` for `qFiles=False` (line 477). -/
def objectStatisticsQueryStr (library : String) : String :=
  "SELECT * FROM TABLE (QSYS2.OBJECT_STATISTICS('" ++ library ++ "','*ALL') ) AS X"

/-- The SELECT of `Library.getFileInfo` for `qFiles=True` (line 480). -/
def memberStatQueryStr (library : String) : String :=
  "SELECT * FROM QSYS2.SYSMEMBERSTAT WHERE SYSTEM_TABLE_SCHEMA = '" ++ library ++
    "' AND SOURCE_TYPE IS NOT NULL ORDER BY SYSTEM_TABLE_MEMBER"

/-- Validation and dispatch of `Library.getFileInfo` (lines 396-542): only a
non-emptiness check — there is no length check — then one SELECT. -/
def getFileInfoEvents (library : String) (qFiles : Bool) : Except String (List Event) :=
  if library = "" then Except.error "A library name is required."
  else Except.ok [Event.query
    (if qFiles then memberStatQueryStr library else objectStatisticsQueryStr library)]

/-- A value in a fetched result row, as the Python code distinguishes them by
`isinstance`: a `datetime`/`date` is carried together with its `isoformat()`
rendering, a `Decimal` with its `str()` rendering. -/
inductive SqlValue where
  | vstr : String → SqlValue
  | vint : Int → SqlValue
  | vnull : SqlValue
  | vtemporal : String → SqlValue
  | vdecimal : String → SqlValue
deriving DecidableEq

/-- The per-value conversion loop of `Library.getFileInfo` (lines 554-559):
`datetime`/`date` values become their ISO-8601 string, `Decimal` values become
their `str()`, everything else is left unchanged. -/
def normalizeValue : SqlValue → SqlValue
  | SqlValue.vtemporal iso => SqlValue.vstr iso
  | SqlValue.vdecimal d => SqlValue.vstr d
  | v => v

/-- Whether a value has already been normalized to a JSON-serializable text or
primitive, i.e. is neither a raw temporal nor a raw `Decimal` value. -/
def textNormalized : SqlValue → Bool
  | SqlValue.vtemporal _ => false
  | SqlValue.vdecimal _ => false
  | _ => true

/-- Row record built by `Library.getFileInfo` (lines 549-562):
`dict(zip(row_title, row))` followed by the conversion loop, modelled as an
association list. -/
def getFileInfoRecord (titles : List String) (row : List SqlValue) :
    List (String × SqlValue) :=
  (titles.zip row).map (fun p => (p.1, normalizeValue p.2))

/-- The fixed 18-name column list of `Library.getInfoForLibrary`
(lines 114-133). -/
def infoRowTitles : List String :=
  ["OBJECT_COUNT", "LIBRARY_SIZE", "LIBRARY_SIZE_COMPLETE", "LIBRARY_TYPE",
   "TEXT_DESCRIPTION", "IASP_NAME", "IASP_NUMBER", "CREATE_AUTHORITY",
   "OBJECT_AUDIT_CREATE", "JOURNALED", "JOURNAL_LIBRARY", "JOURNAL_NAME",
   "INHERIT_JOURNALING", "JOURNAL_INHERIT_RULES", "JOURNAL_START_TIMESTAMP",
   "APPLY_STARTING_RECEIVER_LIBRARY", "APPLY_STARTING_RECEIVER",
   "APPLY_STARTING_RECEIVER_ASP"]

/-- Row record built by `Library.getInfoForLibrary` (line 136):
`dict(zip(rowsTitle, row_tuple))`, serialized directly — there is no
conversion loop here. -/
def getInfoForLibraryRecord (row : List SqlValue) : List (String × SqlValue) :=
  infoRowTitles.zip row

/-- Environment in which every command and every download succeeds. -/
def envAllOk : Env := ⟨fun _ => true, fun _ _ _ => true⟩

/-- Environment in which every command fails. -/
def envNoCmd : Env := ⟨fun _ => false, fun _ _ _ => true⟩

/-- Environment in which every command succeeds but every SFTP download fails
(e.g. the authentication failure caught in `__getZipFile`). -/
def envDownloadFails : Env := ⟨fun _ => true, fun _ _ _ => false⟩

/-- Environment in which every download and every command succeeds except DLTF
(the container cleanup of `removeFile`). -/
def envDltfFails : Env := ⟨fun c => !("DLTF".data.isPrefixOf c.data), fun _ _ _ => true⟩

/-- Every value produced by the `getFileInfo` conversion loop is normalized. -/
theorem textNormalized_normalizeValue (v : SqlValue) :
    textNormalized (normalizeValue v) = true := by
  cases v <;> rfl

/-- Claim C1, behaviour of the code at the failing input: with `getZip=true`,
container creation and SAVLIB population succeeding and the secure-transfer
download failing, `saveLibrary` indeed attempts neither the remote temp-file
deletion (no QSH rm command in the trace) nor the container cleanup (no DLTF
command), but — contrary to the claim and to the method's own docstring — the
inner `except` swallows the download error, so the orchestration commits and
returns `True` instead of a failure result. -/
theorem c1_transfer_failure_skips_cleanup_but_returns_true :
    saveLibrary envDownloadFails "MYLIB" "MYSAVF" "" "" "/tmp" "/home/user"
        true none true "" =
      Except.ok (true,
        [Event.exec "CRTSAVF FILE(MYLIB/MYSAVF) TEXT('A SaveFile from iLibrary')",
         Event.commit,
         Event.exec "SAVLIB LIB(MYLIB) DEV(*SAVF) SAVF(MYLIB/MYSAVF) TGTRLS(*CURRENT)",
         Event.exec "CPYTOSTMF FROMMBR('/QSYS.LIB/MYLIB.LIB/MYSAVF.FILE') TOSTMF('/home/user/MYSAVF.savf') STMFOPT(*REPLACE)",
         Event.download "/tmp/MYSAVF.savf" "/home/user/MYSAVF.savf" 2222,
         Event.commit]) := by
  rfl

/-- Claim C2, behaviour of the code at the failing input: with `getZip=true`
and `remSavf=true`, the transfer succeeding and the container-cleanup DLTF
failing, the `ValueError("The Save File ... was not successfully removed.")`
raised at line 238 is caught by the inner `except` at line 240 and only
printed: contrary to the claim, nothing propagates to the caller —
`saveLibrary` commits and returns the ordinary success value `True`. -/
theorem c2_cleanup_failure_swallowed_commits_true :
    saveLibrary envDltfFails "MYLIB" "MYSAVF" "" "" "/tmp" "/home/user"
        true none true "" =
      Except.ok (true,
        [Event.exec "CRTSAVF FILE(MYLIB/MYSAVF) TEXT('A SaveFile from iLibrary')",
         Event.commit,
         Event.exec "SAVLIB LIB(MYLIB) DEV(*SAVF) SAVF(MYLIB/MYSAVF) TGTRLS(*CURRENT)",
         Event.exec "CPYTOSTMF FROMMBR('/QSYS.LIB/MYLIB.LIB/MYSAVF.FILE') TOSTMF('/home/user/MYSAVF.savf') STMFOPT(*REPLACE)",
         Event.download "/tmp/MYSAVF.savf" "/home/user/MYSAVF.savf" 2222,
         Event.exec "QSH CMD('rm -r /home/user/MYSAVF.savf')",
         Event.exec "DLTF FILE(MYLIB/MYSAVF)",
         Event.rollback,
         Event.commit]) := by
  rfl

/-- Claim C3, counterexample: the 11-character library name ABCDEFGHIJK passed
to `saveLibrary` is not rejected — no validation error is raised and remote
commands embedding the over-length identifier are issued. -/
theorem c3_counterexample_overlong_in_saveLibrary :
    ("ABCDEFGHIJK" : String).length = 11 ∧
    saveLibrary envAllOk "ABCDEFGHIJK" "SAVF1" "" "" "" "" false none true "" =
      Except.ok (true,
        [Event.exec "CRTSAVF FILE(ABCDEFGHIJK/SAVF1) TEXT('A SaveFile from iLibrary')",
         Event.commit,
         Event.exec "SAVLIB LIB(ABCDEFGHIJK) DEV(*SAVF) SAVF(ABCDEFGHIJK/SAVF1) TGTRLS(*CURRENT)",
         Event.commit]) :=
  ⟨rfl, rfl⟩

/-- Claim C3, amended: for every library identifier longer than 10 characters,
only `getInfoForLibrary` rejects the request before issuing any remote
operation; `getFileInfo` and `saveLibrary` perform no length check and dispatch
their remote operations with the over-length identifier embedded. -/
theorem c3_length_check_only_in_getInfoForLibrary (lib : String)
    (hlen : 10 < lib.length) :
    getInfoForLibraryEvents lib =
      Except.error "The library name is too long. Maximum length is 10." ∧
    getFileInfoEvents lib false =
      Except.ok [Event.query (objectStatisticsQueryStr lib)] ∧
    saveLibrary envAllOk lib "SAVF1" "" "" "" "" false none true "" =
      Except.ok (true,
        [Event.exec (crtsavfCmdStr "SAVF1" lib "A SaveFile from iLibrary"),
         Event.commit,
         Event.exec (savlibCmdStr lib lib "SAVF1" "*CURRENT"),
         Event.commit]) := by
  have hne : lib ≠ "" := by
    intro h
    rw [h] at hlen
    exact absurd hlen (by decide)
  have h5 : ("SAVF1" : String) ≠ "" := by decide
  refine ⟨?_, ?_, ?_⟩
  · simp [getInfoForLibraryEvents, hne, hlen]
  · simp [getFileInfoEvents, hne]
  · have hc : envAllOk.cmdOk (crtsavfCmdStr "SAVF1" lib "A SaveFile from iLibrary") = true := rfl
    have hsav : envAllOk.cmdOk (savlibCmdStr lib lib "SAVF1" "*CURRENT") = true := rfl
    have hcrt : crtsavf envAllOk "SAVF1" lib "" =
        Except.ok (true,
          [Event.exec (crtsavfCmdStr "SAVF1" lib "A SaveFile from iLibrary"),
           Event.commit]) := by
      simp [crtsavf, h5, hne, resolveDescription, hc]
    simp [saveLibrary, hne, h5, hcrt, hsav]

/-- Claim C3, witness for the amended theorem at the 11-character identifier
ABCDEFGHIJK. -/
theorem c3_length_check_witness :
    10 < ("ABCDEFGHIJK" : String).length ∧
    (getInfoForLibraryEvents "ABCDEFGHIJK" =
      Except.error "The library name is too long. Maximum length is 10." ∧
    getFileInfoEvents "ABCDEFGHIJK" false =
      Except.ok [Event.query (objectStatisticsQueryStr "ABCDEFGHIJK")] ∧
    saveLibrary envAllOk "ABCDEFGHIJK" "SAVF1" "" "" "" "" false none true "" =
      Except.ok (true,
        [Event.exec (crtsavfCmdStr "SAVF1" "ABCDEFGHIJK" "A SaveFile from iLibrary"),
         Event.commit,
         Event.exec (savlibCmdStr "ABCDEFGHIJK" "ABCDEFGHIJK" "SAVF1" "*CURRENT"),
         Event.commit])) :=
  ⟨by decide, c3_length_check_only_in_getInfoForLibrary "ABCDEFGHIJK" (by decide)⟩

/-- Claim C4, counterexample: called with the lowercase container name
`testfi1e`, the orchestration uppercases it in the CRTSAVF text but embeds it
verbatim — lowercase — into the generated SAVLIB populate command, so the
SAVLIB command is not built from the uppercased argument. -/
theorem c4_counterexample_savlib_embeds_lowercase :
    saveLibrary envAllOk "AKANSHA231" "testfi1e" "" "" "" "" false none true "" =
      Except.ok (true,
        [Event.exec "CRTSAVF FILE(AKANSHA231/TESTFI1E) TEXT('A SaveFile from iLibrary')",
         Event.commit,
         Event.exec "SAVLIB LIB(AKANSHA231) DEV(*SAVF) SAVF(AKANSHA231/testfi1e) TGTRLS(*CURRENT)",
         Event.commit]) ∧
    ("SAVLIB LIB(AKANSHA231) DEV(*SAVF) SAVF(AKANSHA231/testfi1e) TGTRLS(*CURRENT)" : String) ≠
      savlibCmdStr "AKANSHA231" "AKANSHA231" (pyUpper "testfi1e") "*CURRENT" :=
  ⟨rfl, by decide⟩

/-- Claim C4, amended: the CRTSAVF create, CPYTOSTMF convert and DLTF delete
command texts depend on the container name and owner library only through
their uppercased forms (the arguments are uppercased before embedding), but the
SAVLIB populate command embeds `library`, `toLibrary` and `saveFileName` as
given, without uppercasing. -/
theorem c4_upper_embedding_holds_except_savlib :
    (∀ n1 n2 l1 l2 d : String, pyUpper n1 = pyUpper n2 → pyUpper l1 = pyUpper l2 →
      crtsavfCmdStr n1 l1 d = crtsavfCmdStr n2 l2 d) ∧
    (∀ n1 n2 l1 l2 rt : String, pyUpper n1 = pyUpper n2 → pyUpper l1 = pyUpper l2 →
      cpytostmfCmdStr l1 n1 rt = cpytostmfCmdStr l2 n2 rt) ∧
    (∀ n1 n2 l1 l2 : String, pyUpper n1 = pyUpper n2 → pyUpper l1 = pyUpper l2 →
      dltfCmdStr l1 n1 = dltfCmdStr l2 n2) ∧
    pyUpper "testfi1e" = pyUpper "TESTFI1E" ∧
    savlibCmdStr "AKANSHA231" "AKANSHA231" "testfi1e" "*CURRENT" ≠
      savlibCmdStr "AKANSHA231" "AKANSHA231" "TESTFI1E" "*CURRENT" := by
  refine ⟨?_, ?_, ?_, by decide, by decide⟩
  · intro n1 n2 l1 l2 d hn hl
    simp [crtsavfCmdStr, hn, hl]
  · intro n1 n2 l1 l2 rt hn hl
    simp [cpytostmfCmdStr, hn, hl]
  · intro n1 n2 l1 l2 hn hl
    simp [dltfCmdStr, hn, hl]

/-- Claim C4, witness for the amended theorem: differently-cased spellings of
the same names generate the same CRTSAVF command text. -/
theorem c4_upper_embedding_witness :
    pyUpper "savfa" = pyUpper "SAVFA" ∧
    crtsavfCmdStr "savfa" "liba" "D" = crtsavfCmdStr "SAVFA" "LIBA" "D" :=
  ⟨by decide,
   c4_upper_embedding_holds_except_savlib.1 "savfa" "SAVFA" "liba" "LIBA" "D"
     (by decide) (by decide)⟩

/-- Claim C5: whenever the container-creation command of `__crtsavf` fails,
`saveLibrary` returns `False` and the whole trace is that single CRTSAVF
dispatch followed by its rollback — no SAVLIB population command, no transfer
session and no cleanup command is ever attempted. -/
theorem c5_create_failure_stops_orchestration (env : Env)
    (library saveFileName toLibrary description localPath remPath version : String)
    (getZip remSavf : Bool) (port : Option Int)
    (hlib : library ≠ "") (hsf : saveFileName ≠ "")
    (hrem : getZip = true → remPath ≠ "") (hloc : getZip = true → localPath ≠ "")
    (hfail : env.cmdOk (crtsavfCmdStr saveFileName
        (if toLibrary = "" then library else toLibrary)
        (resolveDescription description)) = false) :
    saveLibrary env library saveFileName toLibrary description localPath remPath
        getZip port remSavf version =
      Except.ok (false,
        [Event.exec (crtsavfCmdStr saveFileName
            (if toLibrary = "" then library else toLibrary)
            (resolveDescription description)),
         Event.rollback]) := by
  have h1 : ¬ (getZip = true ∧ remPath = "") := by
    rintro ⟨hg, hr⟩
    exact hrem hg hr
  have h2 : ¬ (getZip = true ∧ localPath = "") := by
    rintro ⟨hg, hr⟩
    exact hloc hg hr
  have htl : (if toLibrary = "" then library else toLibrary) ≠ "" := by
    split
    · exact hlib
    · assumption
  have hcrt : crtsavf env saveFileName
      (if toLibrary = "" then library else toLibrary) description =
      Except.ok (false,
        [Event.exec (crtsavfCmdStr saveFileName
            (if toLibrary = "" then library else toLibrary)
            (resolveDescription description)),
         Event.rollback]) := by
    simp [crtsavf, hsf, htl, hfail]
  simp [saveLibrary, hlib, hsf, h1, h2, hcrt]

/-- Claim C5, witness: in an environment where every command fails, the
orchestration stops right after the failed CRTSAVF with result `False`. -/
theorem c5_create_failure_witness :
    saveLibrary envNoCmd "LIBA" "SAVFA" "" "" "" "" false none true "" =
      Except.ok (false,
        [Event.exec "CRTSAVF FILE(LIBA/SAVFA) TEXT('A SaveFile from iLibrary')",
         Event.rollback]) :=
  c5_create_failure_stops_orchestration envNoCmd "LIBA" "SAVFA" "" "" "" "" ""
    false true none (by decide) (by decide) (by decide) (by decide) rfl

/-- Claim C6: for `library='AKANSHA231'`, `saveFileName='TESTFI1E'`,
`getZip=false` and all other options at their defaults, the orchestration
dispatches exactly two remote command texts, in order: the CRTSAVF create
command with the default description, then the SAVLIB populate command with
the `*CURRENT` target release. -/
theorem c6_roundtrip_generates_exactly_two_commands (env : Env)
    (h1 : env.cmdOk "CRTSAVF FILE(AKANSHA231/TESTFI1E) TEXT('A SaveFile from iLibrary')" = true)
    (h2 : env.cmdOk "SAVLIB LIB(AKANSHA231) DEV(*SAVF) SAVF(AKANSHA231/TESTFI1E) TGTRLS(*CURRENT)" = true) :
    saveLibrary env "AKANSHA231" "TESTFI1E" "" "" "" "" false none true "" =
      Except.ok (true,
        [Event.exec "CRTSAVF FILE(AKANSHA231/TESTFI1E) TEXT('A SaveFile from iLibrary')",
         Event.commit,
         Event.exec "SAVLIB LIB(AKANSHA231) DEV(*SAVF) SAVF(AKANSHA231/TESTFI1E) TGTRLS(*CURRENT)",
         Event.commit]) := by
  have ha : ("AKANSHA231" : String) ≠ "" := by decide
  have hb : ("TESTFI1E" : String) ≠ "" := by decide
  have hcmd1 : crtsavfCmdStr "TESTFI1E" "AKANSHA231" (resolveDescription "") =
      "CRTSAVF FILE(AKANSHA231/TESTFI1E) TEXT('A SaveFile from iLibrary')" := by decide
  have hcmd2 : savlibCmdStr "AKANSHA231" "AKANSHA231" "TESTFI1E" "*CURRENT" =
      "SAVLIB LIB(AKANSHA231) DEV(*SAVF) SAVF(AKANSHA231/TESTFI1E) TGTRLS(*CURRENT)" := by decide
  have hcrt : crtsavf env "TESTFI1E" "AKANSHA231" "" =
      Except.ok (true,
        [Event.exec "CRTSAVF FILE(AKANSHA231/TESTFI1E) TEXT('A SaveFile from iLibrary')",
         Event.commit]) := by
    simp [crtsavf, ha, hb, hcmd1, h1]
  simp [saveLibrary, ha, hb, hcrt, hcmd2, h2]

/-- Claim C6, witness in the all-commands-succeed environment. -/
theorem c6_roundtrip_witness :
    saveLibrary envAllOk "AKANSHA231" "TESTFI1E" "" "" "" "" false none true "" =
      Except.ok (true,
        [Event.exec "CRTSAVF FILE(AKANSHA231/TESTFI1E) TEXT('A SaveFile from iLibrary')",
         Event.commit,
         Event.exec "SAVLIB LIB(AKANSHA231) DEV(*SAVF) SAVF(AKANSHA231/TESTFI1E) TGTRLS(*CURRENT)",
         Event.commit]) :=
  c6_roundtrip_generates_exactly_two_commands envAllOk rfl rfl

/-- Claim C7, counterexample: for `remPath='/home/user//'` the code computes
the remote temp path `/home/user/TESTFI1E.savf` (the join inserts no extra
separator after the once-stripped directory), while the claimed formula
`stripped-directory + '/' + uppercase(name) + '.savf'` yields the different
string `/home/user//TESTFI1E.savf`. -/
theorem c7_counterexample_double_trailing_slash :
    savfTempPath "/home/user//" "TESTFI1E" = "/home/user/TESTFI1E.savf" ∧
    strip1Slash "/home/user//" ++ "/" ++ (pyUpper "TESTFI1E" ++ ".savf") =
      "/home/user//TESTFI1E.savf" ∧
    ("/home/user/TESTFI1E.savf" : String) ≠ "/home/user//TESTFI1E.savf" :=
  ⟨rfl, rfl, by decide⟩

/-- Claim C7, amended: the temp path (used for both the remote temp file and
the local destination) is the POSIX join of the once-stripped directory with
`uppercase(saveFileName) + '.savf'`; it equals
`directory + '/' + uppercase(saveFileName) + '.savf'` whenever the stripped
directory is nonempty and slash-free at its end and the file-name component is
not absolute — in particular `remPath='/home/user/'` and `localPath='/tmp/'`
with `saveFileName='TESTFI1E'` yield `/home/user/TESTFI1E.savf` and
`/tmp/TESTFI1E.savf`, with no double slash. -/
theorem c7_temp_path_is_posix_join :
    (∀ dir name : String, strip1Slash dir ≠ "" →
      (strip1Slash dir).data.getLast? ≠ some '/' →
      (pyUpper name ++ ".savf").data.head? ≠ some '/' →
      savfTempPath dir name = strip1Slash dir ++ "/" ++ (pyUpper name ++ ".savf")) ∧
    savfTempPath "/home/user/" "TESTFI1E" = "/home/user/TESTFI1E.savf" ∧
    savfTempPath "/tmp/" "TESTFI1E" = "/tmp/TESTFI1E.savf" := by
  refine ⟨?_, by decide, by decide⟩
  intro dir name h1 h2 h3
  unfold savfTempPath posixJoin
  rw [if_neg h3, if_neg h1, if_neg h2]

/-- Claim C7, witness for the amended theorem. -/
theorem c7_temp_path_witness :
    strip1Slash "/rem" ≠ "" ∧
    savfTempPath "/rem" "sf1" = strip1Slash "/rem" ++ "/" ++ (pyUpper "sf1" ++ ".savf") :=
  ⟨by decide,
   c7_temp_path_is_posix_join.1 "/rem" "sf1" (by decide) (by decide) (by decide)⟩

/-- Claim C8, counterexample: the single-row summary record of
`getInfoForLibrary` is the bare zip of titles and values — a `Decimal` or
temporal value is passed through raw, not normalized to text as the claim
states (the claimed normalization would have produced `vstr` values). -/
theorem c8_counterexample_summary_row_not_normalized :
    getInfoForLibraryRecord
        [SqlValue.vdecimal "42.5", SqlValue.vtemporal "2024-01-01T00:00:00"] =
      [("OBJECT_COUNT", SqlValue.vdecimal "42.5"),
       ("LIBRARY_SIZE", SqlValue.vtemporal "2024-01-01T00:00:00")] ∧
    textNormalized (SqlValue.vdecimal "42.5") = false ∧
    normalizeValue (SqlValue.vdecimal "42.5") = SqlValue.vstr "42.5" :=
  ⟨rfl, rfl, rfl⟩

/-- Claim C8, amended: only the multi-row listing `getFileInfo` normalizes
temporal and arbitrary-precision numeric values to text before serialization —
every value in its row records is normalized — while the single-row summary
of `getInfoForLibrary` zips titles with the raw row and serializes it without
any such conversion, retaining raw `Decimal`/temporal values. -/
theorem c8_normalization_only_in_getFileInfo :
    (∀ (titles : List String) (row : List SqlValue) (p : String × SqlValue),
      p ∈ getFileInfoRecord titles row → textNormalized p.2 = true) ∧
    getInfoForLibraryRecord [SqlValue.vdecimal "321.5"] =
      [("OBJECT_COUNT", SqlValue.vdecimal "321.5")] ∧
    textNormalized (SqlValue.vdecimal "321.5") = false := by
  refine ⟨?_, rfl, rfl⟩
  intro titles row p hp
  simp only [getFileInfoRecord, List.mem_map] at hp
  obtain ⟨q, hq, rfl⟩ := hp
  exact textNormalized_normalizeValue q.2

/-- Claim C8, witness for the amended theorem: a temporal value surviving into
a `getFileInfo` record has been normalized to its ISO text. -/
theorem c8_normalization_witness :
    (("OBJNAME", SqlValue.vstr "2024-01-01") ∈
      getFileInfoRecord ["OBJNAME"] [SqlValue.vtemporal "2024-01-01"]) ∧
    textNormalized (SqlValue.vstr "2024-01-01") = true :=
  ⟨by decide,
   c8_normalization_only_in_getFileInfo.1 ["OBJNAME"]
     [SqlValue.vtemporal "2024-01-01"] ("OBJNAME", SqlValue.vstr "2024-01-01")
     (by decide)⟩

/-- Claim C9: when the port argument of the transfer step is unset (`None`) or
falsy (`0`), the SFTP connection is attempted on port 2222 — not the
conventional secure-shell port 22 — and a caller-supplied non-zero port is
used as given. -/
theorem c9_transfer_port_defaults_to_2222 :
    (∀ (env : Env) (lp rp : String), lp ≠ "" → rp ≠ "" →
      (getZipFile env lp rp none).2 = [Event.download lp rp 2222]) ∧
    (∀ (env : Env) (lp rp : String) (p : Int), lp ≠ "" → rp ≠ "" → p ≠ 0 →
      (getZipFile env lp rp (some p)).2 = [Event.download lp rp p]) ∧
    effectivePort none = 2222 ∧ effectivePort (some 0) = 2222 ∧
    (2222 : Int) ≠ 22 := by
  refine ⟨?_, ?_, rfl, rfl, by decide⟩
  · intro env lp rp hlp hrp
    simp [getZipFile, effectivePort, hlp, hrp]
  · intro env lp rp p hlp hrp hp
    simp [getZipFile, effectivePort, hlp, hrp, hp]

/-- Claim C9, witness: with no port given, the download attempt goes to
port 2222. -/
theorem c9_transfer_port_witness :
    (getZipFile envAllOk "/tmp/A.savf" "/home/u/A.savf" none).2 =
      [Event.download "/tmp/A.savf" "/home/u/A.savf" 2222] :=
  c9_transfer_port_defaults_to_2222.1 envAllOk "/tmp/A.savf" "/home/u/A.savf"
    (by decide) (by decide)

/-- Claim C10: `removeFile` performs no input validation — for every pair of
arguments, empty strings included, it never raises, always dispatches exactly
one DLTF command built from the uppercased arguments, and returns `False`
after a rollback exactly when that command fails, `True` after a commit
otherwise. -/
theorem c10_removeFile_unvalidated_single_dltf (env : Env)
    (library saveFileName : String) :
    removeFile env library saveFileName =
      Except.ok (env.cmdOk (dltfCmdStr library saveFileName),
        if env.cmdOk (dltfCmdStr library saveFileName)
        then [Event.exec (dltfCmdStr library saveFileName), Event.commit]
        else [Event.exec (dltfCmdStr library saveFileName), Event.rollback]) := by
  unfold removeFile
  cases h : env.cmdOk (dltfCmdStr library saveFileName) <;> simp [h]

end ILibrary
